import Mathlib

/-!
Verification development for the AudioCaptureAlert OBS script
(src/AudioCaptureAlert.py).  The script's global mutable namespace `G` is
embedded as the structure `GState`; the timer callback `event_loop`, the
settings handler `script_update`, the frontend-event handler
`on_frontend_event`, the teardown `script_unload` and the visibility helper
`set_visible_all` are embedded as pure functions from states to states
paired with a list of externally visible effects (host/OS calls).

Python floats appearing as peak levels are modelled by `Level`
(negative infinity, positive infinity, NaN, or a finite rational);
durations, thresholds and tick lengths are rationals.
-/

set_option maxHeartbeats 1000000

namespace AudioCaptureAlert

/-- A peak-level sample as delivered by the volmeter callback: a Python
float, which may be `-inf` (digital silence), `+inf`, NaN, or finite. -/
inductive Level where
  | negInf : Level
  | posInf : Level
  | nan : Level
  | fin (q : ℚ) : Level
deriving DecidableEq

/-- Python `x <= t` on a float `x` and finite threshold `t`:
`-inf <= t` is true, `+inf <= t` is false, `NaN <= t` is false. -/
def pyLe : Level → ℚ → Bool
  | .negInf, _ => true
  | .posInf, _ => false
  | .nan, _ => false
  | .fin q, t => decide (q ≤ t)

/-- Python `math.isinf`: true for both infinities, false otherwise. -/
def isinf : Level → Bool
  | .negInf => true
  | .posInf => true
  | .nan => false
  | .fin _ => false

/-- The silence test of `event_loop` line 219:
`G.noise <= G.silence_db_threshold or math.isinf(G.noise)`. -/
def silentPred (x : Level) (t : ℚ) : Bool := pyLe x t || isinf x

/-- The script's global namespace `G` (lines 61-87 of the source), restricted
to the fields the monitoring logic reads or writes.  `volmeter` holds the id
of the metering instance the stale-able pointer `G.volmeter` refers to
(`none` = Python `None` / null); `next_id` numbers metering instances as they
are created; `timer_on` records whether `obs.timer_add(event_loop, ...)` is
currently in effect. -/
structure GState where
  lock : Bool
  start_delay : ℚ
  duration : ℚ
  noise : Level
  tick : ℚ
  tick_mili : ℚ
  mic_source_name : String
  image_source_name : String
  media_source_name : String
  video_source_name : String
  volmeter : Option Nat
  silence_duration : ℚ
  silence_threshold : ℚ
  silence_db_threshold : ℚ
  plugin_enabled : Bool
  enable_only_active : Bool
  event_logging : Bool
  enable_windows_notification : Bool
  notification_title : String
  notification_message : String
  notification_cooldown : ℚ
  last_notification_time : ℚ
  notification_sent : Bool
  enable_obs_source : Bool
  prev_output_active : Bool
  next_id : Nat
  timer_on : Bool
deriving DecidableEq

/-- Initial values of the globals (lines 61-87). `tick_mili` is set once at
module load to `G.tick * 0.001` and never updated afterwards. -/
def G_init : GState where
  lock := false
  start_delay := 1
  duration := 0
  noise := .negInf
  tick := 10000
  tick_mili := 10
  mic_source_name := ""
  image_source_name := ""
  media_source_name := ""
  video_source_name := ""
  volmeter := none
  silence_duration := 0
  silence_threshold := 60
  silence_db_threshold := -60
  plugin_enabled := false
  enable_only_active := false
  event_logging := false
  enable_windows_notification := true
  notification_title := "OBS マイク警告"
  notification_message := "マイクの音が入っていないかも？"
  notification_cooldown := 60
  last_notification_time := 0
  notification_sent := false
  enable_obs_source := false
  prev_output_active := false
  next_id := 0
  timer_on := false

/-- Host-supplied answers consumed by one invocation of `event_loop`:
whether streaming-or-recording is active, whether
`obs_get_source_by_name` finds the configured mic source, whether
`obs_volmeter_create` succeeds, and whether `obs_volmeter_attach_source`
succeeds. -/
structure TickInput where
  output_active : Bool
  source_found : Bool
  create_ok : Bool
  attach_ok : Bool
deriving DecidableEq

/-- Externally visible calls issued by the embedded functions. -/
inductive Effect where
  | notify (title message : String) : Effect
  | setVisible (name : String) (v : Bool) : Effect
  | sourceLookup (found : Bool) : Effect
  | sourceRelease : Effect
  | meterCreate (id : Nat) : Effect
  | meterCreateFail : Effect
  | addCallback (id : Nat) : Effect
  | attachOk (id : Nat) : Effect
  | attachFail (id : Nat) : Effect
  | meterDestroy (id : Nat) : Effect
  | removeCallback (id : Nat) : Effect
  | timerRemove : Effect
  | timerAdd (ms : ℚ) : Effect
deriving DecidableEq

/-- Python `a or b` on strings: empty string is falsy. -/
def pyOrS (a b : String) : String := if a = "" then b else a

/-- Python `s.startswith(p)`, computed structurally on the character
lists. -/
def pyStartsWith (s p : String) : Bool := p.data.isPrefixOf s.data

/-- Python `s[n:]`, computed structurally on the character list. -/
def pyDrop (s : String) (n : Nat) : String := ⟨s.data.drop n⟩

/-- Python `a or b` on integers: zero is falsy. -/
def pyOrZ (a b : ℤ) : ℤ := if a = 0 then b else a

/-- The alert source name used by `enable_source` (line 247):
`G.image_source_name or G.media_source_name or G.video_source_name`. -/
def alertSourceName (s : GState) : String :=
  pyOrS s.image_source_name (pyOrS s.media_source_name s.video_source_name)

/-- Effects of `enable_source(enable)` (lines 245-256): nothing when no
alert source is configured, otherwise one visibility toggle via
`set_visible_all`. -/
def enableSourceEffects (s : GState) (enable : Bool) : List Effect :=
  if alertSourceName s = "" then [] else [Effect.setVisible (alertSourceName s) enable]

/-- Visibility effects issued from `event_loop` when `enable_obs_source`
is set (lines 230-232 and 240-241). -/
def visEffects (s : GState) (enable : Bool) : List Effect :=
  if s.enable_obs_source = true then enableSourceEffects s enable else []

/-- Lines 219-241 of `event_loop`: the silence check executed once metering
is attached.  If the latest sample is silent, the silence duration grows by
`G.tick / 1000`; on reaching the threshold a notification is dispatched once
per episode and the alert source is made visible; a non-silent sample resets
the duration and the one-shot flag and hides the alert source. -/
def silenceCheck (s : GState) : GState × List Effect :=
  if silentPred s.noise s.silence_db_threshold = true then
    let s1 : GState := { s with silence_duration := s.silence_duration + s.tick / 1000 }
    if s1.silence_threshold ≤ s1.silence_duration then
      if s1.enable_windows_notification = true ∧ s1.notification_sent = false then
        ({ s1 with notification_sent := true },
          Effect.notify s1.notification_title s1.notification_message :: visEffects s1 true)
      else (s1, visEffects s1 true)
    else (s1, [])
  else
    ({ s with silence_duration := 0, notification_sent := false }, visEffects s false)

/-- Lines 194-243 of `event_loop`: the part after the only-while-active
gate.  Within the startup delay only the delay accumulator advances (by the
stale `G.tick_mili`); afterwards, if not yet attached, the mic source is
resolved and a metering instance is created, its callback registered and the
source attached, aborting the tick on any failure — note the attach-failure
path destroys the meter but leaves `G.volmeter` pointing at it.  Once
attached (or on the tick that attaches), the silence check runs. -/
def afterGate (inp : TickInput) (s : GState) : GState × List Effect :=
  if s.start_delay < s.duration then
    if s.lock = true then silenceCheck s
    else if inp.source_found = false then (s, [Effect.sourceLookup false])
    else if inp.create_ok = false then
      ({ s with volmeter := none },
        [Effect.sourceLookup true, Effect.meterCreateFail, Effect.sourceRelease])
    else
      let i := s.next_id
      let s1 : GState := { s with volmeter := some i, next_id := i + 1 }
      if inp.attach_ok = true then
        ((silenceCheck { s1 with lock := true }).1,
          [Effect.sourceLookup true, Effect.meterCreate i, Effect.addCallback i,
            Effect.attachOk i, Effect.sourceRelease]
            ++ (silenceCheck { s1 with lock := true }).2)
      else
        (s1,
          [Effect.sourceLookup true, Effect.meterCreate i, Effect.addCallback i,
            Effect.attachFail i, Effect.meterDestroy i, Effect.sourceRelease])
  else
    ({ s with duration := s.duration + s.tick_mili }, [])

/-- Lines 171-185 of `event_loop`: the only-while-active gate.  An edge of
the streaming/recording flag resets the silence duration and the one-shot
flag; the observed flag is stored in `prev_output_active`. -/
def gateAdjust (inp : TickInput) (s : GState) : GState :=
  { (if s.prev_output_active ≠ inp.output_active then
      { s with silence_duration := 0, notification_sent := false }
    else s) with prev_output_active := inp.output_active }

/-- The timer callback `event_loop` (lines 167-243).  When restricted to
run only while active, the gate adjustment runs first and an inactive host
makes the rest of the tick a no-op. -/
def event_loop (inp : TickInput) (s : GState) : GState × List Effect :=
  if s.enable_only_active = true then
    if inp.output_active = false then (gateAdjust inp s, [])
    else afterGate inp (gateAdjust inp s)
  else afterGate inp s

/-- The four lifecycle frontend events `on_frontend_event` reacts to,
plus any other frontend event. -/
inductive FrontendEvent where
  | recordingStarted : FrontendEvent
  | recordingStopped : FrontendEvent
  | streamingStarted : FrontendEvent
  | streamingStopped : FrontendEvent
  | other : FrontendEvent
deriving DecidableEq

/-- Whether the event is one of the four recording/streaming lifecycle
events listed on lines 264-267. -/
def FrontendEvent.isLifecycle : FrontendEvent → Bool
  | .other => false
  | _ => true

/-- Lines 258-277: `on_frontend_event` resets the silence duration and the
one-shot flag on any recording/streaming start/stop, but only when the
only-while-active restriction is configured. -/
def on_frontend_event (e : FrontendEvent) (s : GState) : GState :=
  if s.enable_only_active = false then s
  else if e.isLifecycle = true then
    { s with silence_duration := 0, notification_sent := false }
  else s

/-- The typed settings values `script_update` reads (lines 369-407). -/
structure Settings where
  mic_source_name : String
  combined_source : String
  tick_interval : ℤ
  silence_threshold : ℤ
  enable_windows_notification : Bool
  notification_title : String
  notification_message : String
  enable_obs_source : Bool
  plugin_enabled : Bool
  enable_only_active : Bool
  event_logging : Bool
deriving DecidableEq

/-- Lines 369-428: `script_update`.  Parses the combined alert-source
selection, applies the numeric settings with Python `or` defaulting,
resets the silence state when the enabled or only-while-active flag
changed, always removes the timer, and re-adds it (with a full state
reset including `prev_output_active`) only when the plugin is enabled. -/
def script_update (st : Settings) (s : GState) : GState × List Effect :=
  let s0 : GState := { s with mic_source_name := st.mic_source_name }
  let s1 : GState :=
    if (st.combined_source ≠ "") ∧ pyStartsWith st.combined_source "image:" = true then
      { s0 with image_source_name := pyDrop st.combined_source 6,
                media_source_name := "", video_source_name := "" }
    else if (st.combined_source ≠ "") ∧ pyStartsWith st.combined_source "media:" = true then
      { s0 with media_source_name := pyDrop st.combined_source 6,
                image_source_name := "", video_source_name := "" }
    else if (st.combined_source ≠ "") ∧ pyStartsWith st.combined_source "video:" = true then
      { s0 with video_source_name := pyDrop st.combined_source 6,
                image_source_name := "", media_source_name := "" }
    else
      { s0 with image_source_name := "", media_source_name := "", video_source_name := "" }
  let s2 : GState :=
    { s1 with tick := ((pyOrZ st.tick_interval 10 : ℤ) : ℚ) * 1000,
              silence_threshold := ((pyOrZ st.silence_threshold 30 : ℤ) : ℚ),
              enable_windows_notification := st.enable_windows_notification,
              notification_title := pyOrS st.notification_title "OBS マイク警告",
              notification_message := pyOrS st.notification_message "マイクの音が入っていないかも？",
              enable_obs_source := st.enable_obs_source }
  let changed : Bool :=
    decide (s.plugin_enabled ≠ st.plugin_enabled) || decide (s.enable_only_active ≠ st.enable_only_active)
  let s3 : GState :=
    { s2 with plugin_enabled := st.plugin_enabled,
              enable_only_active := st.enable_only_active,
              event_logging := st.event_logging }
  let s4 : GState :=
    if changed = true then { s3 with silence_duration := 0, notification_sent := false } else s3
  let s5 : GState := { s4 with timer_on := false }
  if s5.plugin_enabled = true then
    ({ s5 with prev_output_active := false, silence_duration := 0,
               notification_sent := false, timer_on := true },
      [Effect.timerRemove, Effect.timerAdd s5.tick])
  else (s5, [Effect.timerRemove])

/-- Lines 295-306: `script_unload` removes the timer, then — if the
`G.volmeter` pointer is non-null — removes the volmeter callback and
destroys the instance the pointer refers to. -/
def script_unload (s : GState) : GState × List Effect :=
  match s.volmeter with
  | some i => ({ s with timer_on := false }, [Effect.timerRemove, Effect.removeCallback i, Effect.meterDestroy i])
  | none => ({ s with timer_on := false }, [Effect.timerRemove])

/-- One interaction with the script: a timer tick (a no-op when no timer is
registered), an asynchronous volmeter-callback sample, a frontend event, or
a settings update. -/
inductive Event where
  | tick (inp : TickInput) : Event
  | sample (l : Level) : Event
  | frontend (e : FrontendEvent) : Event
  | update (st : Settings) : Event

/-- Step function of the whole script. -/
def step (e : Event) (s : GState) : GState × List Effect :=
  match e with
  | .tick inp => if s.timer_on = true then event_loop inp s else (s, [])
  | .sample l => ({ s with noise := l }, [])
  | .frontend ev => (on_frontend_event ev s, [])
  | .update st => script_update st s

/-- Run a list of events, concatenating the effects. -/
def run (s : GState) : List Event → GState × List Effect
  | [] => (s, [])
  | e :: es => ((run (step e s).1 es).1, (step e s).2 ++ (run (step e s).1 es).2)

/-- Run a list of poll ticks, each preceded by the volmeter callback
delivering a fresh sample. -/
def pollRun (s : GState) : List (Level × TickInput) → GState × List Effect
  | [] => (s, [])
  | (l, inp) :: ts =>
    ((pollRun (event_loop inp { s with noise := l }).1 ts).1,
      (event_loop inp { s with noise := l }).2
        ++ (pollRun (event_loop inp { s with noise := l }).1 ts).2)

/-- The chain of states visited by `pollRun`, starting state included. -/
def pollStates (s : GState) : List (Level × TickInput) → List GState
  | [] => [s]
  | (l, inp) :: ts => s :: pollStates (event_loop inp { s with noise := l }).1 ts

/-- The effects of each tick of `pollRun`, grouped per tick. -/
def pollEffects (s : GState) : List (Level × TickInput) → List (List Effect)
  | [] => []
  | (l, inp) :: ts =>
    (event_loop inp { s with noise := l }).2
      :: pollEffects (event_loop inp { s with noise := l }).1 ts

/-- A scene item: a source name and its visible flag. -/
abbrev Scene := List (String × Bool)

/-- Lines 148-163 of `set_visible_all`, restricted to one scene:
`obs_scene_find_source` finds the first item with the given name, and
`obs_sceneitem_set_visible` sets its visible flag; a scene without the
source is left unchanged. -/
def setVisibleScene (name : String) (v : Bool) : Scene → Scene
  | [] => []
  | it :: rest =>
    if it.1 = name then (it.1, v) :: rest
    else it :: setVisibleScene name v rest

/-- Lines 139-164: `set_visible_all` cycles through all scenes of the
collection, toggling the visibility of the named source in each scene that
contains it. -/
def set_visible_all (name : String) (v : Bool) (scenes : List Scene) : List Scene :=
  scenes.map (setVisibleScene name v)

/-- Recognizer for notification dispatches. -/
def isNotify : Effect → Bool
  | .notify _ _ => true
  | _ => false

/-- Recognizer for effects of the attach phase: source resolution, meter
creation, callback registration and attachment. -/
def isAttachStep : Effect → Bool
  | .sourceLookup _ => true
  | .meterCreate _ => true
  | .meterCreateFail => true
  | .addCallback _ => true
  | .attachOk _ => true
  | .attachFail _ => true
  | _ => false

/-- Recognizer for destruction of metering instance `i`. -/
def isDestroyOf (i : Nat) : Effect → Bool
  | .meterDestroy j => decide (j = i)
  | _ => false

/-- Well-formedness of the events reachability quantifies over: settings
updates carry values within the bounds the properties UI enforces
(lines 328-329: tick interval 1-60 s, silence threshold 5-600 s). -/
def eventWF : Event → Prop
  | .update st =>
      1 ≤ st.tick_interval ∧ st.tick_interval ≤ 60
        ∧ 5 ≤ st.silence_threshold ∧ st.silence_threshold ≤ 600
  | _ => True

/-- States reachable from the initial globals by any sequence of poll
ticks, samples, frontend events and UI-well-formed settings updates. -/
inductive ReachableWF : GState → Prop where
  | init : ReachableWF G_init
  | next (e : Event) (s : GState) (he : eventWF e) (h : ReachableWF s) :
      ReachableWF (step e s).1

/-- The inductive invariant used for the reachability claims: the timer is
registered exactly while the plugin is enabled, the tick length is
non-negative, a disabled plugin has no pending one-shot flag, and the
one-shot flag implies the silence duration has reached the threshold. -/
def Inv (s : GState) : Prop :=
  s.timer_on = s.plugin_enabled ∧ 0 ≤ s.tick
    ∧ (s.plugin_enabled = false → s.notification_sent = false)
    ∧ (s.notification_sent = true → s.silence_threshold ≤ s.silence_duration)

/-- Concrete settings enabling the plugin: 10 s interval, 30 s threshold,
Windows notification on, no visual alert, no only-while-active
restriction. -/
def stEnable : Settings where
  mic_source_name := "Mic"
  combined_source := ""
  tick_interval := 10
  silence_threshold := 30
  enable_windows_notification := true
  notification_title := ""
  notification_message := ""
  enable_obs_source := false
  plugin_enabled := true
  enable_only_active := false
  event_logging := false

/-- The same settings with the plugin disabled. -/
def stDisable : Settings := { stEnable with plugin_enabled := false }

/-- The same settings with a 5 s silence threshold. -/
def stEnableShort : Settings := { stEnable with silence_threshold := 5 }

/-- Fully permissive tick input: host active, source found, meter creation
and attachment succeed. -/
def inpAll : TickInput where
  output_active := true
  source_found := true
  create_ok := true
  attach_ok := true

/-- Tick input on which `obs_volmeter_attach_source` fails. -/
def inpFailAttach : TickInput where
  output_active := true
  source_found := true
  create_ok := true
  attach_ok := false

/-- Tick input with the host neither streaming nor recording. -/
def inpInactive : TickInput where
  output_active := false
  source_found := true
  create_ok := true
  attach_ok := true

/-- The state the attach-success path hands to the silence check. -/
def attachedState (s : GState) : GState :=
  { s with volmeter := some s.next_id, next_id := s.next_id + 1, lock := true }

/-- Overwrite only the two cooldown-related fields, which the monitoring
logic never consults. -/
def setCool (a b : ℚ) (s : GState) : GState :=
  { s with notification_cooldown := a, last_notification_time := b }

/-- A concrete attached state past the startup delay. -/
def sAttached : GState :=
  { G_init with lock := true, duration := 2 }

/-- The attached state with 5 s of accumulated silence and a latest
sample of `+inf`. -/
def sPosInf : GState :=
  { sAttached with silence_duration := 5, noise := Level.posInf }

/-- A concrete enabled state that has observed the host active. -/
def sPrevActive : GState :=
  { G_init with plugin_enabled := true, timer_on := true, prev_output_active := true }

/-- Without the only-while-active restriction, `event_loop` is exactly its
post-gate body. -/
theorem event_loop_no_gate (inp : TickInput) (s : GState)
    (hoa : s.enable_only_active = false) :
    event_loop inp s = afterGate inp s := by
  simp [event_loop, hoa]

/-- Past the startup delay and once attached, the tick body is exactly the
silence check. -/
theorem afterGate_attached (inp : TickInput) (s : GState)
    (hdur : s.start_delay < s.duration) (hlock : s.lock = true) :
    afterGate inp s = silenceCheck s := by
  simp [afterGate, hdur, hlock]

/-- Past the startup delay, attached, and without the only-while-active
restriction, a tick is exactly the silence check. -/
theorem event_loop_attached (inp : TickInput) (s : GState)
    (hoa : s.enable_only_active = false) (hdur : s.start_delay < s.duration)
    (hlock : s.lock = true) :
    event_loop inp s = silenceCheck s := by
  rw [event_loop_no_gate inp s hoa, afterGate_attached inp s hdur hlock]

/-- State after a silent silence check: the duration grows by the tick
length in seconds; the one-shot flag is raised exactly when the threshold
is reached, notifications are enabled and it was not yet raised. -/
theorem silenceCheck_fst_silent (s : GState)
    (h : silentPred s.noise s.silence_db_threshold = true) :
    (silenceCheck s).1 =
      { s with
        silence_duration := s.silence_duration + s.tick / 1000,
        notification_sent :=
          if s.silence_threshold ≤ s.silence_duration + s.tick / 1000
              ∧ s.enable_windows_notification = true ∧ s.notification_sent = false
          then true else s.notification_sent } := by
  simp only [silenceCheck, h, if_true]
  split_ifs with h1 h2 <;> simp_all

/-- State after a non-silent silence check: both accumulating fields are
reset. -/
theorem silenceCheck_fst_sound (s : GState)
    (h : silentPred s.noise s.silence_db_threshold = false) :
    (silenceCheck s).1 = { s with silence_duration := 0, notification_sent := false } := by
  simp [silenceCheck, h]

/-- Visibility effects never contain a notification dispatch. -/
theorem notifyCount_visEffects (s : GState) (b : Bool) :
    List.countP isNotify (visEffects s b) = 0 := by
  simp only [visEffects, enableSourceEffects]
  split_ifs <;> simp [isNotify]

/-- Number of notification dispatches of one silence check. -/
theorem silenceCheck_notifyCount (s : GState) :
    List.countP isNotify (silenceCheck s).2 =
      if silentPred s.noise s.silence_db_threshold = true
          ∧ s.silence_threshold ≤ s.silence_duration + s.tick / 1000
          ∧ s.enable_windows_notification = true ∧ s.notification_sent = false
      then 1 else 0 := by
  by_cases h1 : silentPred s.noise s.silence_db_threshold = true
  · by_cases h2 : s.silence_threshold ≤ s.silence_duration + s.tick / 1000
    · by_cases h3 : s.enable_windows_notification = true ∧ s.notification_sent = false
      · simp [silenceCheck, h1, h2, h3, List.countP_cons, notifyCount_visEffects, isNotify]
      · simp [silenceCheck, h1, h2, h3, notifyCount_visEffects]
    · simp [silenceCheck, h1, h2]
  · simp [silenceCheck, h1, notifyCount_visEffects]

/-- The silence check never changes the attach flag. -/
theorem silenceCheck_lock (s : GState) : (silenceCheck s).1.lock = s.lock := by
  simp only [silenceCheck]
  split_ifs <;> rfl

/-- Visibility effects contain no attach-phase effect. -/
theorem attachCount_visEffects (s : GState) (b : Bool) :
    List.countP isAttachStep (visEffects s b) = 0 := by
  simp only [visEffects, enableSourceEffects]
  split_ifs <;> simp [isAttachStep]

/-- The silence check issues no attach-phase effect. -/
theorem attachCount_silenceCheck (s : GState) :
    List.countP isAttachStep (silenceCheck s).2 = 0 := by
  simp only [silenceCheck]
  split_ifs <;> simp [isAttachStep, attachCount_visEffects, List.countP_cons]

/-- Once attached, the tick body keeps the flag and performs no attach
phase work. -/
theorem afterGate_locked (inp : TickInput) (s : GState) (h : s.lock = true) :
    (afterGate inp s).1.lock = true
      ∧ List.countP isAttachStep (afterGate inp s).2 = 0 := by
  by_cases h1 : s.start_delay < s.duration
  · simp [afterGate, h1, h, silenceCheck_lock, attachCount_silenceCheck]
  · simp [afterGate, h1, h]

/-- The gate adjustment never changes the attach flag. -/
theorem gateAdjust_lock (inp : TickInput) (s : GState) :
    (gateAdjust inp s).lock = s.lock := by
  simp only [gateAdjust]
  split_ifs <;> rfl

/-- Once attached, a tick keeps the flag and performs no attach phase
work, whatever the gate does. -/
theorem event_loop_locked (inp : TickInput) (s : GState) (h : s.lock = true) :
    (event_loop inp s).1.lock = true
      ∧ List.countP isAttachStep (event_loop inp s).2 = 0 := by
  unfold event_loop
  by_cases hoa : s.enable_only_active = true
  · by_cases hact : inp.output_active = false
    · simp [hoa, hact, gateAdjust_lock, h]
    · simpa [hoa, hact] using
        afterGate_locked inp (gateAdjust inp s) (by rw [gateAdjust_lock]; exact h)
  · simpa [hoa] using afterGate_locked inp s h

/-- Settings updates never touch the attach flag. -/
theorem script_update_lock (st : Settings) (s : GState) :
    (script_update st s).1.lock = s.lock := by
  simp only [script_update]
  split_ifs <;> rfl

/-- Settings updates issue only timer effects. -/
theorem attachCount_script_update (st : Settings) (s : GState) :
    List.countP isAttachStep (script_update st s).2 = 0 := by
  simp only [script_update]
  split_ifs <;> simp [isAttachStep]

/-- Frontend events never touch the attach flag. -/
theorem on_frontend_event_lock (e : FrontendEvent) (s : GState) :
    (on_frontend_event e s).lock = s.lock := by
  simp only [on_frontend_event]
  split_ifs <;> rfl

/-- C8 (corrected): once the attach flag `G.lock` is set, it stays set
under every event — tick, sample, frontend event or settings update — and
no subsequent event performs any attach-phase work (source resolution,
meter creation, callback registration, attachment).  In particular the
flag transitions false→true at most once over the script's lifetime; since
nothing ever clears it, re-enabling the plugin does not start a cycle in
which a new attach can occur. -/
theorem C8_lock_monotone (s : GState) (e : Event) (h : s.lock = true) :
    (step e s).1.lock = true
      ∧ List.countP isAttachStep (step e s).2 = 0 := by
  cases e with
  | tick inp =>
    by_cases ht : s.timer_on = true
    · simpa [step, ht] using event_loop_locked inp s h
    · simp [step, ht, h]
  | sample l => simp [step, h]
  | frontend ev => simp [step, on_frontend_event_lock, h]
  | update st => simp [step, script_update_lock, attachCount_script_update, h]

/-- Witness for `C8_lock_monotone` at a concrete attached state and a
permissive tick. -/
theorem C8_lock_monotone_witness :
    (step (.tick inpAll) { G_init with lock := true }).1.lock = true
      ∧ List.countP isAttachStep (step (.tick inpAll) { G_init with lock := true }).2 = 0 :=
  C8_lock_monotone { G_init with lock := true } (.tick inpAll) (by decide)

/-- Counterexample to C8 as stated: after a successful attach, disabling
and re-enabling the plugin leaves the attach flag set, and the next tick —
even with the source present and meter creation and attachment both able
to succeed — performs no attach-phase work at all, so no new attach can
occur in the new enable cycle.  The first enable cycle performed exactly
one successful attach (four attach-phase effects: lookup, create, add
callback, attach). -/
theorem C8_counterexample :
    (run G_init [.update stEnable, .tick inpAll, .tick inpAll,
        .update stDisable, .update stEnable]).1.lock = true
      ∧ List.countP isAttachStep
          (step (.tick inpAll)
            (run G_init [.update stEnable, .tick inpAll, .tick inpAll,
                .update stDisable, .update stEnable]).1).2 = 0
      ∧ List.countP isAttachStep
          (run G_init [.update stEnable, .tick inpAll, .tick inpAll,
              .update stDisable, .update stEnable]).2 = 4 := by
  norm_num [run, step, script_update, event_loop, afterGate, gateAdjust, silenceCheck,
    G_init, stEnable, stDisable, inpAll, pyOrS, pyOrZ, pyStartsWith, pyDrop, silentPred,
    pyLe, isinf, isAttachStep, visEffects, enableSourceEffects, alertSourceName,
    List.countP, List.countP.go]

/-- C2 (corrected): past the startup delay, once attached and without the
only-while-active restriction, a tick treats the latest sample `x` as
silent exactly when `x <= t` (Python float comparison) or `x` is infinite
of either sign: a silent sample grows the accumulated duration by the tick
length, any other sample resets the accumulated state. -/
theorem C2_silence_predicate (s : GState) (inp : TickInput)
    (hoa : s.enable_only_active = false) (hdur : s.start_delay < s.duration)
    (hlock : s.lock = true) :
    (silentPred s.noise s.silence_db_threshold = true →
        (event_loop inp s).1.silence_duration = s.silence_duration + s.tick / 1000)
    ∧ (silentPred s.noise s.silence_db_threshold = false →
        (event_loop inp s).1.silence_duration = 0
          ∧ (event_loop inp s).1.notification_sent = false)
    ∧ (∀ x t, silentPred x t = true ↔ (pyLe x t = true ∨ isinf x = true)) := by
  rw [event_loop_attached inp s hoa hdur hlock]
  refine ⟨fun h => ?_, fun h => ?_, fun x t => ?_⟩
  · rw [silenceCheck_fst_silent s h]
  · rw [silenceCheck_fst_sound s h]
    exact ⟨rfl, rfl⟩
  · simp [silentPred]

/-- Witness for `C2_silence_predicate` at a concrete attached state. -/
theorem C2_silence_predicate_witness :
    (event_loop inpAll sAttached).1.silence_duration
      = sAttached.silence_duration + sAttached.tick / 1000 :=
  (C2_silence_predicate sAttached inpAll (by decide) (by decide) (by decide)).1 (by decide)

/-- Counterexample to C2 as stated: the sample `+inf` satisfies
`x > t` and `x ≠ -inf`, yet `math.isinf` is true for it, so the tick
treats it as silent — from an attached state with 5 s of accumulated
silence it grows the accumulation to 15 s instead of resetting it. -/
theorem C2_counterexample :
    silentPred Level.posInf (-60) = true
      ∧ pyLe Level.posInf (-60) = false
      ∧ Level.posInf ≠ Level.negInf
      ∧ (event_loop inpAll sPosInf).1.silence_duration = 15 := by
  refine ⟨by decide, by decide, by decide, ?_⟩
  norm_num [event_loop, afterGate, gateAdjust, silenceCheck, sPosInf, sAttached, G_init,
    inpAll, silentPred, pyLe, isinf]

/-- C4 (code bug): when `obs_volmeter_attach_source` fails, `event_loop`
destroys the freshly created metering instance but leaves `G.volmeter`
pointing at it (line 215 has no `G.volmeter = None`), so a later
`script_unload` passes the same destroyed instance to
`obs_volmeter_remove_callback` and `obs_volmeter_destroy` again: metering
instance 0 is destroyed twice over its lifetime. -/
theorem C4_double_destroy :
    List.countP (isDestroyOf 0)
        ((run G_init [.update stEnable, .tick inpFailAttach, .tick inpFailAttach]).2
          ++ (script_unload
              (run G_init [.update stEnable, .tick inpFailAttach, .tick inpFailAttach]).1).2) = 2
      ∧ (run G_init [.update stEnable, .tick inpFailAttach, .tick inpFailAttach]).1.volmeter
          = some 0
      ∧ (run G_init [.update stEnable, .tick inpFailAttach, .tick inpFailAttach]).1.lock
          = false := by
  norm_num [run, step, script_update, script_unload, event_loop, afterGate, gateAdjust,
    silenceCheck, G_init, stEnable, inpFailAttach, pyOrS, pyOrZ, pyStartsWith, pyDrop,
    silentPred, pyLe, isinf, isDestroyOf, List.countP, List.countP.go]

/-- C5 (corrected): whenever a settings update changes the enabled flag or
the only-while-active flag, the silence duration and the one-shot flag are
reset; `prev_output_active`, however, is reset to false exactly when the
plugin ends up enabled after the update, not unconditionally. -/
theorem C5_flag_change_reset (s : GState) (st : Settings)
    (h : s.plugin_enabled ≠ st.plugin_enabled ∨ s.enable_only_active ≠ st.enable_only_active) :
    (script_update st s).1.silence_duration = 0
      ∧ (script_update st s).1.notification_sent = false
      ∧ (script_update st s).1.prev_output_active
          = (if st.plugin_enabled = true then false else s.prev_output_active) := by
  have hch : (decide (s.plugin_enabled ≠ st.plugin_enabled)
      || decide (s.enable_only_active ≠ st.enable_only_active)) = true := by
    rcases h with h | h <;> simp [h]
  simp only [script_update, hch]
  split_ifs <;> simp_all

/-- Witness for `C5_flag_change_reset`: disabling the plugin from a state
with `prev_output_active` set. -/
theorem C5_flag_change_reset_witness :
    (script_update stDisable sPrevActive).1.silence_duration = 0
      ∧ (script_update stDisable sPrevActive).1.notification_sent = false
      ∧ (script_update stDisable sPrevActive).1.prev_output_active
          = (if stDisable.plugin_enabled = true then false else sPrevActive.prev_output_active) :=
  C5_flag_change_reset sPrevActive stDisable (by decide)

/-- Counterexample to C5 as stated: disabling the plugin (an enabled-flag
change) leaves `prev_output_active` at true — the update resets it to
false only when the plugin ends up enabled. -/
theorem C5_counterexample :
    sPrevActive.plugin_enabled ≠ stDisable.plugin_enabled
      ∧ (script_update stDisable sPrevActive).1.prev_output_active = true := by
  decide

/-- Toggling the visibility of the same source to the same value twice in
one scene is the same as doing it once. -/
theorem setVisibleScene_idem (name : String) (v : Bool) (sc : Scene) :
    setVisibleScene name v (setVisibleScene name v sc) = setVisibleScene name v sc := by
  induction sc with
  | nil => rfl
  | cons it rest ih =>
    by_cases h : it.1 = name
    · simp [setVisibleScene, h]
    · simp [setVisibleScene, h, ih]

/-- Looking up the source in a scene after the toggle: the first matching
item carries the requested flag, and a scene without the source still has
no such item. -/
theorem lookup_setVisibleScene (name : String) (v : Bool) (sc : Scene) :
    List.lookup name (setVisibleScene name v sc)
      = (List.lookup name sc).map (fun _ => v) := by
  induction sc with
  | nil => rfl
  | cons it rest ih =>
    by_cases h : it.1 = name
    · simp [setVisibleScene, h, List.lookup]
    · have hb : (name == it.1) = false :=
        beq_eq_false_iff_ne.mpr fun hh => h hh.symm
      simp [setVisibleScene, h, List.lookup, hb, ih]

/-- A scene that does not contain the source is left unchanged. -/
theorem setVisibleScene_absent (name : String) (v : Bool) (sc : Scene)
    (h : List.lookup name sc = none) : setVisibleScene name v sc = sc := by
  induction sc with
  | nil => rfl
  | cons it rest ih =>
    by_cases h1 : it.1 = name
    · simp [List.lookup, h1] at h
    · have hb : (name == it.1) = false :=
        beq_eq_false_iff_ne.mpr fun hh => h1 hh.symm
      simp only [List.lookup, hb] at h
      simp [setVisibleScene, h1, ih h]

/-- C9 (confirmed): `set_visible_all` is idempotent — applying
set-visible(v) twice in a row yields the same scene collection as applying
it once; in every scene the item found for the source carries the
requested flag afterwards, and scenes without the source are unchanged. -/
theorem C9_set_visible_all_idempotent :
    (∀ (name : String) (v : Bool) (scenes : List Scene),
        set_visible_all name v (set_visible_all name v scenes)
          = set_visible_all name v scenes)
    ∧ (∀ (name : String) (v : Bool) (sc : Scene),
        List.lookup name (setVisibleScene name v sc)
          = (List.lookup name sc).map (fun _ => v))
    ∧ (∀ (name : String) (v : Bool) (sc : Scene),
        List.lookup name sc = none → setVisibleScene name v sc = sc) := by
  refine ⟨fun name v scenes => ?_, lookup_setVisibleScene, setVisibleScene_absent⟩
  simp only [set_visible_all, List.map_map]
  exact List.map_congr_left fun sc _ => setVisibleScene_idem name v sc

/-- Witness for `C9_set_visible_all_idempotent` on a concrete scene
collection. -/
theorem C9_set_visible_all_idempotent_witness :
    set_visible_all "a" true (set_visible_all "a" true
        [[("a", false), ("b", true)], [("c", false)]])
      = set_visible_all "a" true [[("a", false), ("b", true)], [("c", false)]]
    ∧ List.lookup "a" (setVisibleScene "a" true [("a", false)])
        = (List.lookup "a" [("a", false)]).map (fun _ => true)
    ∧ setVisibleScene "a" true [("c", false)] = [("c", false)] :=
  ⟨C9_set_visible_all_idempotent.1 "a" true [[("a", false), ("b", true)], [("c", false)]],
   C9_set_visible_all_idempotent.2.1 "a" true [("a", false)],
   C9_set_visible_all_idempotent.2.2 "a" true [("c", false)] (by decide)⟩

/-- With the only-while-active restriction on and an inactive host, a tick
is just the gate adjustment, with no effects. -/
theorem event_loop_inactive (inp : TickInput) (s : GState)
    (hoa : s.enable_only_active = true) (hact : inp.output_active = false) :
    event_loop inp s = (gateAdjust inp s, []) := by
  simp [event_loop, hoa, hact]

/-- Fields of the gate adjustment: the startup-delay accumulator, flags and
thresholds are untouched; the silence duration and one-shot flag are reset
exactly on an edge of the active flag, and the observed flag is stored. -/
theorem gateAdjust_fields (inp : TickInput) (s : GState) :
    (gateAdjust inp s).duration = s.duration
    ∧ (gateAdjust inp s).enable_only_active = s.enable_only_active
    ∧ (gateAdjust inp s).prev_output_active = inp.output_active
    ∧ (gateAdjust inp s).silence_duration
        = (if s.prev_output_active ≠ inp.output_active then 0 else s.silence_duration)
    ∧ (gateAdjust inp s).notification_sent
        = (if s.prev_output_active ≠ inp.output_active then false else s.notification_sent) := by
  simp only [gateAdjust]
  split_ifs <;> simp

/-- The state chain of a poll run always starts at the initial state. -/
theorem pollStates_head (s : GState) (ticks : List (Level × TickInput)) :
    (pollStates s ticks).head? = some s := by
  cases ticks with
  | nil => rfl
  | cons t ts => cases t; rfl

/-- C6 (confirmed): with the only-while-active flag set and the host
inactive at every tick, no tick issues any effect, the startup-delay
accumulator never changes and the silence duration never grows (it is
either kept or reset to 0), for every sequence of samples; moreover any
inactive tick at which the active flag differs from the previously
observed value resets the silence duration to 0 and the one-shot flag to
false. -/
theorem C6_inactive_no_accumulation (s : GState) (ticks : List (Level × TickInput))
    (hoa : s.enable_only_active = true)
    (hin : ∀ p ∈ ticks, p.2.output_active = false) :
    (pollRun s ticks).2 = []
    ∧ List.Chain'
        (fun a b => (b.silence_duration = a.silence_duration ∨ b.silence_duration = 0)
          ∧ b.duration = a.duration) (pollStates s ticks)
    ∧ (∀ (l : Level) (inp : TickInput), inp.output_active = false →
        s.prev_output_active ≠ inp.output_active →
        (event_loop inp { s with noise := l }).1.silence_duration = 0
          ∧ (event_loop inp { s with noise := l }).1.notification_sent = false) := by
  refine ⟨?_, ?_, ?_⟩
  · induction ticks generalizing s with
    | nil => rfl
    | cons t ts ih =>
      obtain ⟨l, inp⟩ := t
      have hact : inp.output_active = false := hin (l, inp) (List.mem_cons_self _ _)
      have he := event_loop_inactive inp { s with noise := l } hoa hact
      have hoa' : (gateAdjust inp { s with noise := l }).enable_only_active = true :=
        (gateAdjust_fields inp _).2.1.trans hoa
      simp only [pollRun, he]
      exact ih _ hoa' fun p hp => hin p (List.mem_cons_of_mem _ hp)
  · induction ticks generalizing s with
    | nil => simp [pollStates]
    | cons t ts ih =>
      obtain ⟨l, inp⟩ := t
      have hact : inp.output_active = false := hin (l, inp) (List.mem_cons_self _ _)
      have he := event_loop_inactive inp { s with noise := l } hoa hact
      have hoa' : (gateAdjust inp { s with noise := l }).enable_only_active = true :=
        (gateAdjust_fields inp _).2.1.trans hoa
      simp only [pollStates, he]
      rw [List.chain'_cons']
      refine ⟨?_, ih _ hoa' fun p hp => hin p (List.mem_cons_of_mem _ hp)⟩
      intro b hb
      rw [pollStates_head] at hb
      obtain rfl : gateAdjust inp { s with noise := l } = b := by
        simpa using hb
      obtain ⟨hd, _, _, hsd, _⟩ := gateAdjust_fields inp ({ s with noise := l })
      constructor
      · rw [hsd]
        split_ifs <;> simp
      · rw [hd]
  · intro l inp hact hedge
    rw [event_loop_inactive inp { s with noise := l } hoa hact]
    obtain ⟨_, _, _, hsd, hsent⟩ := gateAdjust_fields inp ({ s with noise := l })
    have hedge' : ({ s with noise := l } : GState).prev_output_active ≠ inp.output_active := hedge
    rw [hsd, hsent]
    simp [hedge']

/-- Witness for `C6_inactive_no_accumulation`: two inactive ticks from a
state that last observed the host active. -/
theorem C6_inactive_no_accumulation_witness :
    (pollRun { sPrevActive with enable_only_active := true }
        [(Level.negInf, inpInactive), (Level.fin 0, inpInactive)]).2 = []
    ∧ (event_loop inpInactive
        { { sPrevActive with enable_only_active := true } with noise := Level.negInf }).1.silence_duration = 0 := by
  have h := C6_inactive_no_accumulation { sPrevActive with enable_only_active := true }
    [(Level.negInf, inpInactive), (Level.fin 0, inpInactive)] (by decide) (by decide)
  exact ⟨h.1, (h.2.2 Level.negInf inpInactive (by decide) (by decide)).1⟩

/-- One attached tick on a silent sample: the silence duration grows by
the tick length and every field the silence check does not touch is
preserved. -/
theorem silent_tick_step (s : GState) (l : Level) (inp : TickInput)
    (hlock : s.lock = true) (hdur : s.start_delay < s.duration)
    (hoa : s.enable_only_active = false)
    (hs : silentPred l s.silence_db_threshold = true) :
    (event_loop inp { s with noise := l }).1.silence_duration
        = s.silence_duration + s.tick / 1000
    ∧ (event_loop inp { s with noise := l }).1.lock = s.lock
    ∧ (event_loop inp { s with noise := l }).1.duration = s.duration
    ∧ (event_loop inp { s with noise := l }).1.start_delay = s.start_delay
    ∧ (event_loop inp { s with noise := l }).1.enable_only_active = s.enable_only_active
    ∧ (event_loop inp { s with noise := l }).1.tick = s.tick
    ∧ (event_loop inp { s with noise := l }).1.silence_db_threshold
        = s.silence_db_threshold := by
  have he : event_loop inp { s with noise := l } = silenceCheck { s with noise := l } :=
    event_loop_attached inp { s with noise := l } hoa hdur hlock
  have hsc := silenceCheck_fst_silent { s with noise := l } (by simpa using hs)
  rw [he, hsc]
  simp

/-- C7 (confirmed): past the startup delay, once attached and without the
only-while-active restriction, the silence duration is monotonically
non-decreasing along any run of ticks whose samples all satisfy the
silence predicate, and it equals exactly 0 immediately after a tick that
observes a non-silent sample. -/
theorem C7_silence_duration_monotone (s : GState) (ticks : List (Level × TickInput))
    (hlock : s.lock = true) (hdur : s.start_delay < s.duration)
    (hoa : s.enable_only_active = false) (htick : 0 ≤ s.tick)
    (hsil : ∀ p ∈ ticks, silentPred p.1 s.silence_db_threshold = true) :
    List.Chain' (fun a b => a.silence_duration ≤ b.silence_duration) (pollStates s ticks)
    ∧ (∀ (l : Level) (inp : TickInput),
        silentPred l s.silence_db_threshold = false →
        (event_loop inp { s with noise := l }).1.silence_duration = 0) := by
  constructor
  · induction ticks generalizing s with
    | nil => simp [pollStates]
    | cons t ts ih =>
      obtain ⟨l, inp⟩ := t
      have hs : silentPred l s.silence_db_threshold = true :=
        hsil (l, inp) (List.mem_cons_self _ _)
      obtain ⟨hsd, hl, hd, hst, hoa2, ht, hdb⟩ :=
        silent_tick_step s l inp hlock hdur hoa hs
      simp only [pollStates]
      rw [List.chain'_cons']
      constructor
      · intro b hb
        rw [pollStates_head] at hb
        obtain rfl : (event_loop inp { s with noise := l }).1 = b := by simpa using hb
        rw [hsd]
        have : (0 : ℚ) ≤ s.tick / 1000 := by positivity
        linarith
      · apply ih (event_loop inp { s with noise := l }).1
        · rw [hl]; exact hlock
        · rw [hst, hd]; exact hdur
        · rw [hoa2]; exact hoa
        · rw [ht]; exact htick
        · intro p hp
          rw [hdb]
          exact hsil p (List.mem_cons_of_mem _ hp)
  · intro l inp hns
    have he : event_loop inp { s with noise := l } = silenceCheck { s with noise := l } :=
      event_loop_attached inp { s with noise := l } hoa hdur hlock
    rw [he, silenceCheck_fst_sound { s with noise := l } (by simpa using hns)]

/-- Witness for `C7_silence_duration_monotone`: three silent ticks from a
concrete attached state, and a loud sample resetting to 0. -/
theorem C7_silence_duration_monotone_witness :
    List.Chain' (fun a b => a.silence_duration ≤ b.silence_duration)
      (pollStates sAttached
        [(Level.negInf, inpAll), (Level.fin (-70), inpAll), (Level.fin (-65), inpAll)])
    ∧ (event_loop inpAll { sAttached with noise := Level.fin 0 }).1.silence_duration = 0 := by
  have h := C7_silence_duration_monotone sAttached
    [(Level.negInf, inpAll), (Level.fin (-70), inpAll), (Level.fin (-65), inpAll)]
    (by decide) (by norm_num [sAttached, G_init]) (by decide) (by norm_num [sAttached, G_init])
    (by intro p hp; fin_cases hp <;> norm_num [silentPred, pyLe, isinf, sAttached, G_init])
  exact ⟨h.1, h.2 (Level.fin 0) inpAll (by norm_num [silentPred, pyLe, isinf, sAttached, G_init])⟩

/-- One attached tick on a silent sample, notification side: the one-shot
flag is raised exactly when the threshold is reached with notifications
enabled and the flag still clear, the threshold and the notification
switch are untouched, and the tick dispatches exactly one notification in
that same case and none otherwise. -/
theorem silent_tick_notify (s : GState) (l : Level) (inp : TickInput)
    (hlock : s.lock = true) (hdur : s.start_delay < s.duration)
    (hoa : s.enable_only_active = false)
    (hs : silentPred l s.silence_db_threshold = true) :
    (event_loop inp { s with noise := l }).1.notification_sent
        = (if s.silence_threshold ≤ s.silence_duration + s.tick / 1000
              ∧ s.enable_windows_notification = true ∧ s.notification_sent = false
           then true else s.notification_sent)
    ∧ (event_loop inp { s with noise := l }).1.silence_threshold = s.silence_threshold
    ∧ (event_loop inp { s with noise := l }).1.enable_windows_notification
        = s.enable_windows_notification
    ∧ List.countP isNotify (event_loop inp { s with noise := l }).2
        = (if s.silence_threshold ≤ s.silence_duration + s.tick / 1000
              ∧ s.enable_windows_notification = true ∧ s.notification_sent = false
           then 1 else 0) := by
  have he : event_loop inp { s with noise := l } = silenceCheck { s with noise := l } :=
    event_loop_attached inp { s with noise := l } hoa hdur hlock
  have hsc := silenceCheck_fst_silent { s with noise := l } (by simpa using hs)
  have hc := silenceCheck_notifyCount { s with noise := l }
  rw [he, hsc]
  refine ⟨by simp, by simp, by simp, ?_⟩
  rw [hc]
  have hs' : silentPred ({ s with noise := l } : GState).noise
      ({ s with noise := l } : GState).silence_db_threshold = true := by simpa using hs
  simp [hs']

/-- Once the one-shot flag is set, a run of silent attached ticks
dispatches no further notification. -/
theorem sent_silent_run (s : GState) (ticks : List (Level × TickInput))
    (hlock : s.lock = true) (hdur : s.start_delay < s.duration)
    (hoa : s.enable_only_active = false)
    (hsent : s.notification_sent = true)
    (hsil : ∀ p ∈ ticks, silentPred p.1 s.silence_db_threshold = true) :
    (pollEffects s ticks).map (List.countP isNotify)
      = List.replicate ticks.length 0 := by
  induction ticks generalizing s with
  | nil => rfl
  | cons t ts ih =>
    obtain ⟨l, inp⟩ := t
    have hs : silentPred l s.silence_db_threshold = true :=
      hsil (l, inp) (List.mem_cons_self _ _)
    obtain ⟨hsd, hl, hd, hst, hoa2, ht, hdb⟩ := silent_tick_step s l inp hlock hdur hoa hs
    obtain ⟨hsent2, hthr2, hnot2, hcount⟩ := silent_tick_notify s l inp hlock hdur hoa hs
    simp only [pollEffects, List.map_cons, List.length_cons, List.replicate_succ]
    congr 1
    · rw [hcount]
      simp [hsent]
    · apply ih (event_loop inp { s with noise := l }).1
      · rw [hl]; exact hlock
      · rw [hst, hd]; exact hdur
      · rw [hoa2]; exact hoa
      · rw [hsent2]; simp [hsent]
      · intro p hp
        rw [hdb]
        exact hsil p (List.mem_cons_of_mem _ hp)

/-- A run of silent attached ticks starting m ticks into a fresh episode,
with a 30 s threshold and a 10 s tick: the single notification happens at
the tick that makes the accumulated duration reach 30 s. -/
theorem fresh_silent_run (s : GState) (ticks : List (Level × TickInput)) (m : ℕ)
    (hlock : s.lock = true) (hdur : s.start_delay < s.duration)
    (hoa : s.enable_only_active = false)
    (hthr : s.silence_threshold = 30) (htick : s.tick = 10000)
    (hnotif : s.enable_windows_notification = true)
    (hsent : s.notification_sent = false)
    (hsd : s.silence_duration = 10 * (m : ℚ)) (hm : 10 * (m : ℚ) < 30)
    (hsil : ∀ p ∈ ticks, silentPred p.1 s.silence_db_threshold = true) :
    (pollEffects s ticks).map (List.countP isNotify)
      = (List.range ticks.length).map (fun k => if m + k = 2 then 1 else 0) := by
  induction ticks generalizing s m with
  | nil => rfl
  | cons t ts ih =>
    obtain ⟨l, inp⟩ := t
    have hs : silentPred l s.silence_db_threshold = true :=
      hsil (l, inp) (List.mem_cons_self _ _)
    obtain ⟨hsd2, hl, hd, hst, hoa2, ht, hdb⟩ := silent_tick_step s l inp hlock hdur hoa hs
    obtain ⟨hsent2, hthr2, hnot2, hcount⟩ := silent_tick_notify s l inp hlock hdur hoa hs
    have hm3 : m < 3 := by
      by_contra hc
      push_neg at hc
      have : (3 : ℚ) ≤ (m : ℚ) := by exact_mod_cast hc
      nlinarith
    have hsilts : ∀ p ∈ ts, silentPred p.1 s.silence_db_threshold = true :=
      fun p hp => hsil p (List.mem_cons_of_mem _ hp)
    simp only [pollEffects, List.map_cons, List.length_cons, List.range_succ_eq_map,
      List.map_map]
    by_cases hm2 : m = 2
    · have hcond : s.silence_threshold ≤ s.silence_duration + s.tick / 1000 := by
        rw [hthr, htick, hsd, hm2]
        norm_num
      congr 1
      · rw [hcount]
        simp [hcond, hnotif, hsent, hm2]
      · have htail := sent_silent_run (event_loop inp { s with noise := l }).1 ts
          (by rw [hl]; exact hlock) (by rw [hst, hd]; exact hdur)
          (by rw [hoa2]; exact hoa)
          (by rw [hsent2]; simp [hcond, hnotif, hsent])
          (by intro p hp; rw [hdb]; exact hsilts p hp)
        rw [htail]
        have : ∀ k ∈ List.range ts.length,
            ((fun k => if m + k = 2 then 1 else 0) ∘ Nat.succ) k = (0 : ℕ) := by
          intro k _
          simp only [Function.comp]
          rw [if_neg (by omega)]
        rw [List.map_congr_left this, List.map_const', List.length_range]
    · have hmle : m ≤ 1 := by omega
      have hcond : ¬ s.silence_threshold ≤ s.silence_duration + s.tick / 1000 := by
        rw [hthr, htick, hsd]
        have : (m : ℚ) ≤ 1 := by exact_mod_cast hmle
        intro hcontra
        nlinarith
      congr 1
      · rw [hcount]
        simp [hcond, hm2]
      · have htail := ih (event_loop inp { s with noise := l }).1 (m + 1)
          (by rw [hl]; exact hlock) (by rw [hst, hd]; exact hdur)
          (by rw [hoa2]; exact hoa)
          (by rw [hthr2]; exact hthr) (by rw [ht]; exact htick)
          (by rw [hnot2]; exact hnotif)
          (by rw [hsent2]; simp [hcond, hsent])
          (by rw [hsd2, hsd, htick]; push_cast; ring)
          (by push_cast
              have : (m : ℚ) ≤ 1 := by exact_mod_cast hmle
              nlinarith)
          (by intro p hp; rw [hdb]; exact hsilts p hp)
        rw [htail]
        apply List.map_congr_left
        intro k _
        simp only [Function.comp]
        exact if_congr (by omega) rfl rfl

/-- C1 (confirmed): in any attached run past the startup delay with
notifications enabled, threshold 30 s and tick 10 s, a fresh silence
episode sustained for 10 ticks (100 s) dispatches exactly one
notification, at the third tick — the first tick at which the accumulated
silence duration reaches 30 s — and none before or after. -/
theorem C1_single_dispatch_per_episode (s : GState) (ticks : List (Level × TickInput))
    (hlock : s.lock = true) (hdur : s.start_delay < s.duration)
    (hoa : s.enable_only_active = false)
    (hthr : s.silence_threshold = 30) (htick : s.tick = 10000)
    (hnotif : s.enable_windows_notification = true)
    (hsent : s.notification_sent = false) (hsd : s.silence_duration = 0)
    (hlen : ticks.length = 10)
    (hsil : ∀ p ∈ ticks, silentPred p.1 s.silence_db_threshold = true) :
    (pollEffects s ticks).map (List.countP isNotify)
      = [0, 0, 1, 0, 0, 0, 0, 0, 0, 0] := by
  have h := fresh_silent_run s ticks 0 hlock hdur hoa hthr htick hnotif hsent
    (by rw [hsd]; norm_num) (by norm_num) hsil
  rw [h, hlen]
  decide

/-- Witness for `C1_single_dispatch_per_episode`: ten digital-silence
ticks from a concrete fresh attached state. -/
theorem C1_single_dispatch_per_episode_witness :
    (pollEffects { sAttached with silence_threshold := 30 }
        (List.replicate 10 (Level.negInf, inpAll))).map (List.countP isNotify)
      = [0, 0, 1, 0, 0, 0, 0, 0, 0, 0] :=
  C1_single_dispatch_per_episode { sAttached with silence_threshold := 30 }
    (List.replicate 10 (Level.negInf, inpAll))
    (by decide) (by norm_num [sAttached, G_init]) (by decide) (by norm_num [sAttached, G_init])
    (by norm_num [sAttached, G_init]) (by decide) (by decide)
    (by norm_num [sAttached, G_init]) (by decide)
    (by intro p hp
        have := List.eq_of_mem_replicate hp
        rw [this]
        decide)

@[simp] theorem setCool_lock (a b : ℚ) (s : GState) :
    (setCool a b s).lock = s.lock := rfl

@[simp] theorem setCool_start_delay (a b : ℚ) (s : GState) :
    (setCool a b s).start_delay = s.start_delay := rfl

@[simp] theorem setCool_duration (a b : ℚ) (s : GState) :
    (setCool a b s).duration = s.duration := rfl

@[simp] theorem setCool_noise (a b : ℚ) (s : GState) :
    (setCool a b s).noise = s.noise := rfl

@[simp] theorem setCool_tick (a b : ℚ) (s : GState) :
    (setCool a b s).tick = s.tick := rfl

@[simp] theorem setCool_tick_mili (a b : ℚ) (s : GState) :
    (setCool a b s).tick_mili = s.tick_mili := rfl

@[simp] theorem setCool_mic_source_name (a b : ℚ) (s : GState) :
    (setCool a b s).mic_source_name = s.mic_source_name := rfl

@[simp] theorem setCool_image_source_name (a b : ℚ) (s : GState) :
    (setCool a b s).image_source_name = s.image_source_name := rfl

@[simp] theorem setCool_media_source_name (a b : ℚ) (s : GState) :
    (setCool a b s).media_source_name = s.media_source_name := rfl

@[simp] theorem setCool_video_source_name (a b : ℚ) (s : GState) :
    (setCool a b s).video_source_name = s.video_source_name := rfl

@[simp] theorem setCool_volmeter (a b : ℚ) (s : GState) :
    (setCool a b s).volmeter = s.volmeter := rfl

@[simp] theorem setCool_silence_duration (a b : ℚ) (s : GState) :
    (setCool a b s).silence_duration = s.silence_duration := rfl

@[simp] theorem setCool_silence_threshold (a b : ℚ) (s : GState) :
    (setCool a b s).silence_threshold = s.silence_threshold := rfl

@[simp] theorem setCool_silence_db_threshold (a b : ℚ) (s : GState) :
    (setCool a b s).silence_db_threshold = s.silence_db_threshold := rfl

@[simp] theorem setCool_plugin_enabled (a b : ℚ) (s : GState) :
    (setCool a b s).plugin_enabled = s.plugin_enabled := rfl

@[simp] theorem setCool_enable_only_active (a b : ℚ) (s : GState) :
    (setCool a b s).enable_only_active = s.enable_only_active := rfl

@[simp] theorem setCool_event_logging (a b : ℚ) (s : GState) :
    (setCool a b s).event_logging = s.event_logging := rfl

@[simp] theorem setCool_enable_windows_notification (a b : ℚ) (s : GState) :
    (setCool a b s).enable_windows_notification = s.enable_windows_notification := rfl

@[simp] theorem setCool_notification_title (a b : ℚ) (s : GState) :
    (setCool a b s).notification_title = s.notification_title := rfl

@[simp] theorem setCool_notification_message (a b : ℚ) (s : GState) :
    (setCool a b s).notification_message = s.notification_message := rfl

@[simp] theorem setCool_notification_sent (a b : ℚ) (s : GState) :
    (setCool a b s).notification_sent = s.notification_sent := rfl

@[simp] theorem setCool_enable_obs_source (a b : ℚ) (s : GState) :
    (setCool a b s).enable_obs_source = s.enable_obs_source := rfl

@[simp] theorem setCool_prev_output_active (a b : ℚ) (s : GState) :
    (setCool a b s).prev_output_active = s.prev_output_active := rfl

@[simp] theorem setCool_next_id (a b : ℚ) (s : GState) :
    (setCool a b s).next_id = s.next_id := rfl

@[simp] theorem setCool_timer_on (a b : ℚ) (s : GState) :
    (setCool a b s).timer_on = s.timer_on := rfl

@[simp] theorem setCool_notification_cooldown (a b : ℚ) (s : GState) :
    (setCool a b s).notification_cooldown = a := rfl

@[simp] theorem setCool_last_notification_time (a b : ℚ) (s : GState) :
    (setCool a b s).last_notification_time = b := rfl

/-- The silence check neither reads nor writes the cooldown fields. -/
theorem silenceCheck_cool (s : GState) (a b : ℚ) :
    silenceCheck (setCool a b s) = (setCool a b (silenceCheck s).1, (silenceCheck s).2) := by
  simp only [setCool, silenceCheck, visEffects, enableSourceEffects, alertSourceName, pyOrS]
  split_ifs <;> rfl

/-- Within the startup delay, a tick only advances the delay accumulator
by the stale `tick_mili`. -/
theorem afterGate_delay (inp : TickInput) (s : GState)
    (h : ¬ s.start_delay < s.duration) :
    afterGate inp s = ({ s with duration := s.duration + s.tick_mili }, []) := by
  simp [afterGate, h]

/-- Unattached tick, mic source not found: the tick aborts. -/
theorem afterGate_nofind (inp : TickInput) (s : GState)
    (h : s.start_delay < s.duration) (hl : s.lock = false)
    (hf : inp.source_found = false) :
    afterGate inp s = (s, [Effect.sourceLookup false]) := by
  simp [afterGate, h, hl, hf]

/-- Unattached tick, meter creation fails: the null result is stored and
the tick aborts. -/
theorem afterGate_nocreate (inp : TickInput) (s : GState)
    (h : s.start_delay < s.duration) (hl : s.lock = false)
    (hf : inp.source_found = true) (hc : inp.create_ok = false) :
    afterGate inp s = ({ s with volmeter := none },
      [Effect.sourceLookup true, Effect.meterCreateFail, Effect.sourceRelease]) := by
  simp [afterGate, h, hl, hf, hc]

/-- Unattached tick, attach fails: the meter is destroyed but the stale
pointer to it is kept, and the tick aborts. -/
theorem afterGate_attachfail (inp : TickInput) (s : GState)
    (h : s.start_delay < s.duration) (hl : s.lock = false)
    (hf : inp.source_found = true) (hc : inp.create_ok = true)
    (ha : inp.attach_ok = false) :
    afterGate inp s
      = ({ s with volmeter := some s.next_id, next_id := s.next_id + 1 },
        [Effect.sourceLookup true, Effect.meterCreate s.next_id,
          Effect.addCallback s.next_id, Effect.attachFail s.next_id,
          Effect.meterDestroy s.next_id, Effect.sourceRelease]) := by
  simp [afterGate, h, hl, hf, hc, ha]

/-- Unattached tick, attach succeeds: the flag is set and the silence
check runs in the same tick. -/
theorem afterGate_attachok (inp : TickInput) (s : GState)
    (h : s.start_delay < s.duration) (hl : s.lock = false)
    (hf : inp.source_found = true) (hc : inp.create_ok = true)
    (ha : inp.attach_ok = true) :
    afterGate inp s
      = ((silenceCheck (attachedState s)).1,
        [Effect.sourceLookup true, Effect.meterCreate s.next_id,
          Effect.addCallback s.next_id, Effect.attachOk s.next_id,
          Effect.sourceRelease]
          ++ (silenceCheck (attachedState s)).2) := by
  simp [afterGate, attachedState, h, hl, hf, hc, ha]

/-- The post-gate tick body neither reads nor writes the cooldown
fields. -/
theorem afterGate_cool (inp : TickInput) (s : GState) (a b : ℚ) :
    afterGate inp (setCool a b s)
      = (setCool a b (afterGate inp s).1, (afterGate inp s).2) := by
  by_cases h : s.start_delay < s.duration
  · by_cases hl : s.lock = true
    · rw [afterGate_attached inp (setCool a b s) (by simpa using h) (by simpa using hl),
        afterGate_attached inp s h hl]
      exact silenceCheck_cool s a b
    · have hl' : s.lock = false := by
        cases hh : s.lock <;> simp_all
      by_cases hf : inp.source_found = false
      · rw [afterGate_nofind inp (setCool a b s) (by simpa using h) (by simpa using hl') hf,
          afterGate_nofind inp s h hl' hf]
      · have hf' : inp.source_found = true := by
          cases hh : inp.source_found <;> simp_all
        by_cases hc : inp.create_ok = false
        · rw [afterGate_nocreate inp (setCool a b s) (by simpa using h) (by simpa using hl') hf' hc,
            afterGate_nocreate inp s h hl' hf' hc]
          rfl
        · have hc' : inp.create_ok = true := by
            cases hh : inp.create_ok <;> simp_all
          by_cases ha : inp.attach_ok = true
          · rw [afterGate_attachok inp (setCool a b s) (by simpa using h) (by simpa using hl') hf' hc' ha,
              afterGate_attachok inp s h hl' hf' hc' ha]
            rw [show attachedState (setCool a b s) = setCool a b (attachedState s) from rfl,
              silenceCheck_cool]
            rfl
          · have ha' : inp.attach_ok = false := by
              cases hh : inp.attach_ok <;> simp_all
            rw [afterGate_attachfail inp (setCool a b s) (by simpa using h) (by simpa using hl') hf' hc' ha',
              afterGate_attachfail inp s h hl' hf' hc' ha']
            rfl
  · rw [afterGate_delay inp (setCool a b s) (by simpa using h), afterGate_delay inp s h]
    rfl

/-- The gate adjustment neither reads nor writes the cooldown fields. -/
theorem gateAdjust_cool (inp : TickInput) (s : GState) (a b : ℚ) :
    gateAdjust inp (setCool a b s) = setCool a b (gateAdjust inp s) := by
  simp only [setCool, gateAdjust]
  split_ifs <;> rfl

/-- A tick neither reads nor writes the cooldown fields. -/
theorem event_loop_cool (inp : TickInput) (s : GState) (a b : ℚ) :
    event_loop inp (setCool a b s)
      = (setCool a b (event_loop inp s).1, (event_loop inp s).2) := by
  by_cases hoa : s.enable_only_active = true
  · by_cases hact : inp.output_active = false
    · simp only [event_loop]
      rw [if_pos (by simpa using hoa), if_pos hact, if_pos hoa, if_pos hact,
        gateAdjust_cool]
    · simp only [event_loop]
      rw [if_pos (by simpa using hoa), if_neg hact, if_pos hoa, if_neg hact,
        gateAdjust_cool, afterGate_cool]
  · simp only [event_loop]
    rw [if_neg (by simpa using hoa), if_neg hoa, afterGate_cool]

/-- A settings update neither reads nor writes the cooldown fields. -/
theorem script_update_cool (st : Settings) (s : GState) (a b : ℚ) :
    script_update st (setCool a b s)
      = (setCool a b (script_update st s).1, (script_update st s).2) := by
  simp only [setCool, script_update]
  split_ifs <;> rfl

/-- A frontend event neither reads nor writes the cooldown fields. -/
theorem on_frontend_event_cool (e : FrontendEvent) (s : GState) (a b : ℚ) :
    on_frontend_event e (setCool a b s) = setCool a b (on_frontend_event e s) := by
  simp only [setCool, on_frontend_event]
  split_ifs <;> rfl

/-- One step of the script neither reads nor writes the cooldown
fields. -/
theorem step_cool (e : Event) (s : GState) (a b : ℚ) :
    step e (setCool a b s) = (setCool a b (step e s).1, (step e s).2) := by
  cases e with
  | tick inp =>
    by_cases ht : s.timer_on = true
    · simp only [step]
      rw [if_pos (by simpa using ht), if_pos ht, event_loop_cool]
    · simp only [step]
      rw [if_neg (by simpa using ht), if_neg ht]
  | sample l => rfl
  | frontend ev =>
    simp only [step]
    rw [on_frontend_event_cool]
  | update st => exact script_update_cool st s a b

/-- A whole run of the script neither reads nor writes the cooldown
fields. -/
theorem run_cool (events : List Event) (s : GState) (a b : ℚ) :
    run (setCool a b s) events = (setCool a b (run s events).1, (run s events).2) := by
  induction events generalizing s with
  | nil => rfl
  | cons e es ih =>
    simp only [run, step_cool, ih]

/-- C10 (confirmed): the `notification_cooldown` setting and the
`last_notification_time` timestamp are never consulted by the poll, reset
or dispatch logic: two runs identical except for those two fields produce
the same effect sequence (notifications, visibility toggles, host calls)
and the same updates of every other state field. -/
theorem C10_cooldown_never_consulted (s : GState) (a b : ℚ) (events : List Event) :
    run { s with notification_cooldown := a, last_notification_time := b } events
      = ({ (run s events).1 with
            notification_cooldown := a,
            last_notification_time := b },
        (run s events).2) :=
  run_cool events s a b

/-- The initial globals satisfy the invariant. -/
theorem inv_init : Inv G_init := by
  refine ⟨rfl, by norm_num [G_init], fun _ => rfl, fun h => ?_⟩
  simp [G_init] at h

/-- The settings-dependent fields of the state after `script_update`. -/
theorem script_update_fields (st : Settings) (s : GState) :
    (script_update st s).1.plugin_enabled = st.plugin_enabled
    ∧ (script_update st s).1.timer_on = st.plugin_enabled
    ∧ (script_update st s).1.tick = ((pyOrZ st.tick_interval 10 : ℤ) : ℚ) * 1000
    ∧ (script_update st s).1.silence_threshold = ((pyOrZ st.silence_threshold 30 : ℤ) : ℚ)
    ∧ (script_update st s).1.notification_sent
        = (if st.plugin_enabled = true then false
           else if s.plugin_enabled ≠ st.plugin_enabled
              ∨ s.enable_only_active ≠ st.enable_only_active then false
           else s.notification_sent)
    ∧ (script_update st s).1.silence_duration
        = (if st.plugin_enabled = true then 0
           else if s.plugin_enabled ≠ st.plugin_enabled
              ∨ s.enable_only_active ≠ st.enable_only_active then 0
           else s.silence_duration) := by
  simp only [script_update]
  split_ifs <;> simp_all

/-- The silence check preserves the one-shot part of the invariant. -/
theorem silenceCheck_inv4 (s : GState) (ht : 0 ≤ s.tick)
    (h4 : s.notification_sent = true → s.silence_threshold ≤ s.silence_duration) :
    (silenceCheck s).1.notification_sent = true →
      (silenceCheck s).1.silence_threshold ≤ (silenceCheck s).1.silence_duration := by
  by_cases hs : silentPred s.noise s.silence_db_threshold = true
  · rw [silenceCheck_fst_silent s hs]
    by_cases hc : s.silence_threshold ≤ s.silence_duration + s.tick / 1000
        ∧ s.enable_windows_notification = true ∧ s.notification_sent = false
    · intro _
      simpa using hc.1
    · simp only [if_neg hc]
      intro hsent
      have h1 := h4 (by simpa using hsent)
      have h2 : (0 : ℚ) ≤ s.tick / 1000 := by positivity
      show s.silence_threshold ≤ s.silence_duration + s.tick / 1000
      linarith
  · have hs' : silentPred s.noise s.silence_db_threshold = false := by
      cases hh : silentPred s.noise s.silence_db_threshold <;> simp_all
    rw [silenceCheck_fst_sound s hs']
    intro h
    simp at h

/-- The silence check leaves the enabled flag, the timer registration, the
tick length and the plugin flags unchanged. -/
theorem silenceCheck_inv_fields (s : GState) :
    (silenceCheck s).1.timer_on = s.timer_on
    ∧ (silenceCheck s).1.plugin_enabled = s.plugin_enabled
    ∧ (silenceCheck s).1.tick = s.tick := by
  simp only [silenceCheck]
  split_ifs <;> exact ⟨rfl, rfl, rfl⟩

/-- Fields of the gate adjustment relevant to the invariant. -/
theorem gateAdjust_fields2 (inp : TickInput) (s : GState) :
    (gateAdjust inp s).timer_on = s.timer_on
    ∧ (gateAdjust inp s).plugin_enabled = s.plugin_enabled
    ∧ (gateAdjust inp s).tick = s.tick
    ∧ (gateAdjust inp s).silence_threshold = s.silence_threshold := by
  simp only [gateAdjust]
  split_ifs <;> exact ⟨rfl, rfl, rfl, rfl⟩

/-- The gate adjustment preserves the one-shot part of the invariant. -/
theorem gateAdjust_inv4 (inp : TickInput) (s : GState)
    (h4 : s.notification_sent = true → s.silence_threshold ≤ s.silence_duration) :
    (gateAdjust inp s).notification_sent = true →
      (gateAdjust inp s).silence_threshold ≤ (gateAdjust inp s).silence_duration := by
  obtain ⟨_, _, _, hsd, hsent⟩ := gateAdjust_fields inp s
  obtain ⟨_, _, _, hthr⟩ := gateAdjust_fields2 inp s
  intro hs
  rw [hsent] at hs
  rw [hthr, hsd]
  split_ifs at hs ⊢ with he
  exact h4 hs

/-- The post-gate body preserves the fields relevant to the invariant. -/
theorem afterGate_pres3 (inp : TickInput) (t : GState) :
    (afterGate inp t).1.timer_on = t.timer_on
    ∧ (afterGate inp t).1.plugin_enabled = t.plugin_enabled
    ∧ (afterGate inp t).1.tick = t.tick := by
  by_cases hd : t.start_delay < t.duration
  · by_cases hl : t.lock = true
    · rw [afterGate_attached inp t hd hl]
      exact silenceCheck_inv_fields t
    · have hl' : t.lock = false := by cases hh : t.lock <;> simp_all
      by_cases hf : inp.source_found = false
      · rw [afterGate_nofind inp t hd hl' hf]
        exact ⟨rfl, rfl, rfl⟩
      · have hf' : inp.source_found = true := by cases hh : inp.source_found <;> simp_all
        by_cases hc : inp.create_ok = false
        · rw [afterGate_nocreate inp t hd hl' hf' hc]
          exact ⟨rfl, rfl, rfl⟩
        · have hc' : inp.create_ok = true := by cases hh : inp.create_ok <;> simp_all
          by_cases ha : inp.attach_ok = true
          · rw [afterGate_attachok inp t hd hl' hf' hc' ha]
            exact silenceCheck_inv_fields (attachedState t)
          · have ha' : inp.attach_ok = false := by cases hh : inp.attach_ok <;> simp_all
            rw [afterGate_attachfail inp t hd hl' hf' hc' ha']
            exact ⟨rfl, rfl, rfl⟩
  · rw [afterGate_delay inp t hd]
    exact ⟨rfl, rfl, rfl⟩

/-- The post-gate body preserves the one-shot part of the invariant. -/
theorem afterGate_inv4 (inp : TickInput) (t : GState) (ht : 0 ≤ t.tick)
    (h4 : t.notification_sent = true → t.silence_threshold ≤ t.silence_duration) :
    (afterGate inp t).1.notification_sent = true →
      (afterGate inp t).1.silence_threshold ≤ (afterGate inp t).1.silence_duration := by
  by_cases hd : t.start_delay < t.duration
  · by_cases hl : t.lock = true
    · rw [afterGate_attached inp t hd hl]
      exact silenceCheck_inv4 t ht h4
    · have hl' : t.lock = false := by cases hh : t.lock <;> simp_all
      by_cases hf : inp.source_found = false
      · rw [afterGate_nofind inp t hd hl' hf]
        exact h4
      · have hf' : inp.source_found = true := by cases hh : inp.source_found <;> simp_all
        by_cases hc : inp.create_ok = false
        · rw [afterGate_nocreate inp t hd hl' hf' hc]
          exact h4
        · have hc' : inp.create_ok = true := by cases hh : inp.create_ok <;> simp_all
          by_cases ha : inp.attach_ok = true
          · rw [afterGate_attachok inp t hd hl' hf' hc' ha]
            exact silenceCheck_inv4 (attachedState t) ht h4
          · have ha' : inp.attach_ok = false := by cases hh : inp.attach_ok <;> simp_all
            rw [afterGate_attachfail inp t hd hl' hf' hc' ha']
            exact h4
  · rw [afterGate_delay inp t hd]
    exact h4

/-- A tick preserves the fields and the one-shot part of the
invariant. -/
theorem event_loop_inv_parts (inp : TickInput) (s : GState) (h2 : 0 ≤ s.tick)
    (h4 : s.notification_sent = true → s.silence_threshold ≤ s.silence_duration) :
    (event_loop inp s).1.timer_on = s.timer_on
    ∧ (event_loop inp s).1.plugin_enabled = s.plugin_enabled
    ∧ (event_loop inp s).1.tick = s.tick
    ∧ ((event_loop inp s).1.notification_sent = true →
        (event_loop inp s).1.silence_threshold ≤ (event_loop inp s).1.silence_duration) := by
  by_cases hoa : s.enable_only_active = true
  · by_cases hact : inp.output_active = false
    · rw [event_loop_inactive inp s hoa hact]
      obtain ⟨g1, g2, g3, _⟩ := gateAdjust_fields2 inp s
      exact ⟨g1, g2, g3, gateAdjust_inv4 inp s h4⟩
    · have he : event_loop inp s = afterGate inp (gateAdjust inp s) := by
        simp [event_loop, hoa, hact]
      rw [he]
      obtain ⟨g1, g2, g3, _⟩ := gateAdjust_fields2 inp s
      obtain ⟨a1, a2, a3⟩ := afterGate_pres3 inp (gateAdjust inp s)
      refine ⟨a1.trans g1, a2.trans g2, a3.trans g3, ?_⟩
      exact afterGate_inv4 inp (gateAdjust inp s) (by rw [g3]; exact h2)
        (gateAdjust_inv4 inp s h4)
  · have hoa' : s.enable_only_active = false := by cases hh : s.enable_only_active <;> simp_all
    rw [event_loop_no_gate inp s hoa']
    obtain ⟨a1, a2, a3⟩ := afterGate_pres3 inp s
    exact ⟨a1, a2, a3, afterGate_inv4 inp s h2 h4⟩

/-- Every well-formed event preserves the invariant. -/
theorem inv_step (e : Event) (s : GState) (he : eventWF e) (h : Inv s) :
    Inv (step e s).1 := by
  obtain ⟨h1, h2, h3, h4⟩ := h
  cases e with
  | tick inp =>
    by_cases ht : s.timer_on = true
    · simp only [step, if_pos ht]
      obtain ⟨p1, p2, p3, p4⟩ := event_loop_inv_parts inp s h2 h4
      refine ⟨p1.trans (h1.trans p2.symm), by rw [p3]; exact h2, ?_, p4⟩
      intro hp
      rw [p2] at hp
      have hcontra : (true : Bool) = false := by
        rw [← ht, h1, hp]
      simp at hcontra
    · simp only [step, if_neg ht]
      exact ⟨h1, h2, h3, h4⟩
  | sample l => exact ⟨h1, h2, h3, h4⟩
  | frontend ev =>
    simp only [step]
    unfold on_frontend_event
    split_ifs with hx hy
    · exact ⟨h1, h2, h3, h4⟩
    · refine ⟨h1, h2, fun _ => rfl, fun hp => ?_⟩
      simp at hp
    · exact ⟨h1, h2, h3, h4⟩
  | update st =>
    obtain ⟨u1, u2, u3, u4, u5, u6⟩ := script_update_fields st s
    obtain ⟨hti, _, _, _⟩ := he
    simp only [step]
    refine ⟨u2.trans u1.symm, ?_, ?_, ?_⟩
    · rw [u3]
      have hz : (1 : ℤ) ≤ pyOrZ st.tick_interval 10 := by
        unfold pyOrZ
        split_ifs with h0
        · norm_num
        · exact hti
      have hq : (1 : ℚ) ≤ ((pyOrZ st.tick_interval 10 : ℤ) : ℚ) := by exact_mod_cast hz
      nlinarith
    · intro hp
      rw [u1] at hp
      rw [u5, if_neg (by simp [hp])]
      split_ifs with hch
      · rfl
      · push_neg at hch
        rw [hch.1] at h3
        exact h3 hp
    · intro hp
      rw [u5] at hp
      split_ifs at hp with c1 c2
      push_neg at c2
      have hpl : s.plugin_enabled = false := by
        rw [c2.1]
        cases hh : st.plugin_enabled
        · rfl
        · exact absurd hh c1
      rw [h3 hpl] at hp
      simp at hp

/-- Every reachable state satisfies the invariant. -/
theorem inv_reachable (s : GState) (h : ReachableWF s) : Inv s := by
  induction h with
  | init => exact inv_init
  | next e s' he hr ih => exact inv_step e s' he ih

/-- C3 (confirmed): in every state reachable by poll ticks, volmeter
samples, frontend events and UI-well-formed settings updates, the one-shot
flag is set only while the silence duration has reached the threshold; and
each of the events the claim names — a sound tick, an active-flag edge, a
lifecycle frontend event, a flag-changing reconfiguration — resets the
silence duration and the one-shot flag together. -/
theorem C3_notification_invariant :
    (∀ s : GState, ReachableWF s → s.notification_sent = true →
        s.silence_threshold ≤ s.silence_duration)
    ∧ (∀ (s : GState) (inp : TickInput), s.lock = true → s.start_delay < s.duration →
        s.enable_only_active = false → silentPred s.noise s.silence_db_threshold = false →
        (event_loop inp s).1.silence_duration = 0
          ∧ (event_loop inp s).1.notification_sent = false)
    ∧ (∀ (s : GState) (inp : TickInput), s.enable_only_active = true →
        inp.output_active = false → s.prev_output_active ≠ inp.output_active →
        (event_loop inp s).1.silence_duration = 0
          ∧ (event_loop inp s).1.notification_sent = false)
    ∧ (∀ (s : GState) (e : FrontendEvent), s.enable_only_active = true →
        e.isLifecycle = true →
        (on_frontend_event e s).silence_duration = 0
          ∧ (on_frontend_event e s).notification_sent = false)
    ∧ (∀ (s : GState) (st : Settings),
        s.plugin_enabled ≠ st.plugin_enabled ∨ s.enable_only_active ≠ st.enable_only_active →
        (script_update st s).1.silence_duration = 0
          ∧ (script_update st s).1.notification_sent = false) := by
  refine ⟨fun s hr => (inv_reachable s hr).2.2.2, ?_, ?_, ?_, ?_⟩
  · intro s inp hl hd hoa hns
    rw [event_loop_attached inp s hoa hd hl, silenceCheck_fst_sound s hns]
    exact ⟨rfl, rfl⟩
  · intro s inp hoa hact hedge
    rw [event_loop_inactive inp s hoa hact]
    obtain ⟨_, _, _, hsd, hsent⟩ := gateAdjust_fields inp s
    rw [hsd, hsent, if_pos hedge, if_pos hedge]
    exact ⟨rfl, rfl⟩
  · intro s e hoa hlc
    unfold on_frontend_event
    rw [if_neg (by simp [hoa]), if_pos hlc]
    exact ⟨rfl, rfl⟩
  · intro s st hch
    obtain ⟨_, _, _, _, u5, u6⟩ := script_update_fields st s
    rw [u5, u6]
    constructor <;> (split_ifs <;> rfl)

/-- Witness for `C3_notification_invariant`: a concrete reachable state
with the one-shot flag set (enable with a 5 s threshold, one startup tick,
one attaching silent tick), and concrete instances of each reset event. -/
theorem C3_notification_invariant_witness :
    ((step (.tick inpAll) (step (.tick inpAll)
        (step (.update stEnableShort) G_init).1).1).1.silence_threshold
      ≤ (step (.tick inpAll) (step (.tick inpAll)
          (step (.update stEnableShort) G_init).1).1).1.silence_duration)
    ∧ ((event_loop inpAll { sAttached with noise := Level.fin 0 }).1.silence_duration = 0
        ∧ (event_loop inpAll { sAttached with noise := Level.fin 0 }).1.notification_sent = false)
    ∧ ((event_loop inpInactive
          { sPrevActive with enable_only_active := true }).1.silence_duration = 0
        ∧ (event_loop inpInactive
            { sPrevActive with enable_only_active := true }).1.notification_sent = false)
    ∧ ((on_frontend_event .recordingStopped
          { sPrevActive with enable_only_active := true }).silence_duration = 0
        ∧ (on_frontend_event .recordingStopped
            { sPrevActive with enable_only_active := true }).notification_sent = false)
    ∧ ((script_update stDisable sPrevActive).1.silence_duration = 0
        ∧ (script_update stDisable sPrevActive).1.notification_sent = false) := by
  refine ⟨?_, ?_, ?_, ?_, ?_⟩
  · refine C3_notification_invariant.1 _
      (ReachableWF.next (.tick inpAll) _ trivial
        (ReachableWF.next (.tick inpAll) _ trivial
          (ReachableWF.next (.update stEnableShort) G_init
            (by norm_num [eventWF, stEnableShort, stEnable])
            ReachableWF.init))) ?_
    norm_num [step, script_update, event_loop, afterGate, gateAdjust, silenceCheck,
      attachedState, G_init, stEnableShort, stEnable, inpAll, pyOrS, pyOrZ, pyStartsWith,
      pyDrop, silentPred, pyLe, isinf]
  · exact C3_notification_invariant.2.1 { sAttached with noise := Level.fin 0 } inpAll
      (by decide) (by norm_num [sAttached, G_init]) (by decide)
      (by norm_num [silentPred, pyLe, isinf, sAttached, G_init])
  · exact C3_notification_invariant.2.2.1 { sPrevActive with enable_only_active := true }
      inpInactive (by decide) (by decide) (by decide)
  · exact C3_notification_invariant.2.2.2.1 { sPrevActive with enable_only_active := true }
      .recordingStopped (by decide) (by decide)
  · exact C3_notification_invariant.2.2.2.2 sPrevActive stDisable (by decide)

end AudioCaptureAlert
